import Mathlib

/-!
# Artifact-Backed Recommendation & Valuation Service — verification

Shallow embedding of the FastAPI real-estate service
(`FastAPI_Real_Estate_API/main.py` and `backend/app.py`), covering the three
engines: price prediction (`predict_price`), similarity recommendation
(`recommend_properties_with_scores` inside `recommend_apartments`), and the
radius-bounded location search (`search_locations`, `location_search`).

Modelling conventions:
* Python floats are modelled as exact rationals (`ℚ`); `round(x, n)` is
  round-half-to-even on exact rationals, as Python's `round` is.
* The trained sklearn pipeline is opaque in the source; the composite
  `np.expm1(pipeline.predict(one_df))[0]` is modelled as an opaque function
  `predictExpm1 : PropertyInput → ℚ` carried in the server state.  Since
  `expm1` is onto `(-1, ∞)`, any rational value `> -1` is an admissible output.
* Python's `sorted(..., reverse=True)` and `list.sort(..., reverse=True)` are
  stable sorts; they are modelled with `List.insertionSort`, which is stable
  and evaluates in the kernel.
* Python slices with possibly negative bounds (`l[1 : top_n + 1]`,
  `l[: top_n]`) are modelled by `pySliceOneTo` / `pySliceTo`, which implement
  CPython's negative-index and clamping rules.
-/

/-- Round a rational to the nearest integer, halves to the even integer —
the semantics of Python 3 `round` on exact values. -/
def pyRoundInt (q : ℚ) : ℤ :=
  let f := ⌊q⌋
  let frac := q - f
  if frac < 1/2 then f
  else if 1/2 < frac then f + 1
  else if f % 2 = 0 then f else f + 1

/-- Python `round(q, 1)`. -/
def pyRound1 (q : ℚ) : ℚ := (pyRoundInt (q * 10) : ℚ) / 10

/-- Python `round(q, 2)`. -/
def pyRound2 (q : ℚ) : ℚ := (pyRoundInt (q * 100) : ℚ) / 100

/-- Python `round(q, 3)`. -/
def pyRound3 (q : ℚ) : ℚ := (pyRoundInt (q * 1000) : ℚ) / 1000

/-- Python slice `l[1 : j]` where `j` may be negative (counted from the end)
and is clamped to the list bounds, per CPython slicing rules. -/
def pySliceOneTo {α : Type} (l : List α) (j : ℤ) : List α :=
  (l.take (max 0 (min (if j < 0 then j + l.length else j) (l.length : ℤ))).toNat).drop 1

/-- Python slice `l[: j]` where `j` may be negative (counted from the end)
and is clamped to the list bounds, per CPython slicing rules. -/
def pySliceTo {α : Type} (l : List α) (j : ℤ) : List α :=
  l.take (max 0 (min (if j < 0 then j + l.length else j) (l.length : ℤ))).toNat

/-- The request body of `/predict_price` (`PropertyInput` in `main.py`). -/
structure PropertyInput where
  property_type : String
  sector : String
  bedrooms : ℚ
  bathroom : ℚ
  balcony : String
  property_age : String
  built_up_area : ℚ
  servant_room : ℚ
  store_room : ℚ
  furnishing_type : String
  luxury_category : String
  floor_category : String
  deriving DecidableEq

/-- The error kinds the handlers raise via `HTTPException`. -/
inductive ApiError where
  | invalidSector
  | invalidPropertyType
  | propertyNotFound
  | invalidLocation
  | invalidRadius
  | modelNotLoaded
  deriving DecidableEq

/-- The artifacts `main.py` loads at startup, as far as the handlers read
them: `df['sector'].unique()` (`sectors`), the opaque composite
`expm1 ∘ pipeline.predict` (`predictExpm1`), `location_df.index`
(`propIndex`), `location_df.columns` (`locations`), the distance values of
`location_df` in meters (`dist`), and the three similarity matrices. -/
structure ServerState where
  sectors : List String
  predictExpm1 : PropertyInput → ℚ
  propIndex : List String
  locations : List String
  dist : String → String → ℚ
  sim1 : Nat → Nat → ℚ
  sim2 : Nat → Nat → ℚ
  sim3 : Nat → Nat → ℚ

/-- The point estimate and the ±0.22 band around it, as computed by
`predict_price`: `base_price = np.expm1(pipeline.predict(one_df))[0]`,
`low = base_price - 0.22`, `high = base_price + 0.22`.  There is no
clamping of `low` in `main.py` or the streamlit predictor. -/
structure PriceRange where
  point : ℚ
  low : ℚ
  high : ℚ
  deriving DecidableEq

/-- The band computation of `predict_price` (`main.py` lines 68–70). -/
def priceBand (base_price : ℚ) : PriceRange :=
  ⟨base_price, base_price - 22/100, base_price + 22/100⟩

/-- `POST /predict_price` (`main.py` lines 47–76): validate the sector
against `df['sector'].unique()` and the property type against
`['flat', 'house']`, then return the rounded band ends
(`low_price_cr`, `high_price_cr`). -/
def predict_price (s : ServerState) (input : PropertyInput) :
    Except ApiError (ℚ × ℚ) :=
  if input.sector ∉ s.sectors then .error .invalidSector
  else if input.property_type ∉ ["flat", "house"] then .error .invalidPropertyType
  else
    let band := priceBand (s.predictExpm1 input)
    .ok (pyRound2 band.low, pyRound2 band.high)

/-- Descending-by-score comparison used by
`sorted(sim_scores, key=lambda x: x[1], reverse=True)`: a stable sort by
this relation is exactly Python's stable descending sort on the score. -/
def sndGE {α : Type} (a b : α × ℚ) : Prop := b.2 ≤ a.2

/-- Ascending-by-value comparison used by `sort_values()`. -/
def sndLE {α : Type} (a b : α × ℚ) : Prop := a.2 ≤ b.2

instance {α : Type} : DecidableRel (@sndGE α) :=
  fun a b => inferInstanceAs (Decidable (b.2 ≤ a.2))

instance {α : Type} : DecidableRel (@sndLE α) :=
  fun a b => inferInstanceAs (Decidable (a.2 ≤ b.2))

instance {α : Type} : IsTrans (α × ℚ) sndGE :=
  ⟨fun _ _ _ h1 h2 => le_trans h2 h1⟩

instance {α : Type} : IsTotal (α × ℚ) sndGE :=
  ⟨fun a b => le_total b.2 a.2⟩

instance {α : Type} : IsTrans (α × ℚ) sndLE :=
  ⟨fun _ _ _ h1 h2 => le_trans h1 h2⟩

instance {α : Type} : IsTotal (α × ℚ) sndLE :=
  ⟨fun a b => le_total a.2 b.2⟩

/-- One cell of `cosine_sim_matrix = 0.5 * cosine_sim1 + 0.8 * cosine_sim2
+ 1 * cosine_sim3` (`main.py` line 82). -/
def combinedSim (s : ServerState) (i j : Nat) : ℚ :=
  1/2 * s.sim1 i j + 4/5 * s.sim2 i j + 1 * s.sim3 i j

/-- `list(enumerate(cosine_sim_matrix[location_df.index.get_loc(name)]))`:
the query row of the combined matrix, paired with positional indices. -/
def simRow (s : ServerState) (qi : Nat) : List (Nat × ℚ) :=
  (List.range s.propIndex.length).map (fun i => (i, combinedSim s qi i))

/-- `recommend_properties_with_scores` (`main.py` lines 81–95): enumerate the
query row of the combined similarity matrix, sort stably by descending score,
take the Python slice `[1 : top_n + 1]`, and map positions back to property
names via `location_df.index`. -/
def recommend_properties_with_scores (s : ServerState) (property_name : String)
    (top_n : ℤ) : Except ApiError (List (String × ℚ)) :=
  if property_name ∉ s.propIndex then .error .propertyNotFound
  else
    let qi := s.propIndex.indexOf property_name
    let sorted_scores := (simRow s qi).insertionSort sndGE
    let top := pySliceOneTo sorted_scores (top_n + 1)
    .ok (top.map (fun p => (s.propIndex.getD p.1 "", p.2)))

/-- `POST /search_locations` (`main.py` lines 106–118): validate location and
radius, select rows of `location_df` whose distance in the chosen column is
strictly below `radius * 1000` meters, sort ascending, and report each
distance as `round(value / 1000, 2)` kilometers. -/
def search_locations (s : ServerState) (location : String) (radius : ℚ) :
    Except ApiError (List (String × ℚ)) :=
  if location ∉ s.locations then .error .invalidLocation
  else if radius ≤ 0 then .error .invalidRadius
  else
    let selected := s.propIndex.filter (fun p => decide (s.dist location p < radius * 1000))
    let result_ser := (selected.map (fun p => (p, s.dist location p))).insertionSort sndLE
    .ok (result_ser.map (fun kv => (kv.1, pyRound2 (kv.2 / 1000))))

/-- The state of `backend/app.py` as far as its handlers read it.  Its
module-level loader (lines 98–114) never deserializes the similarity
matrices: `cosine_sim1/2/3` are unconditionally bound to empty arrays, and
no handler reads them.  `locationEmpty` models `location_df.empty`;
`mockScore` models the seeded `np.random.uniform(0.5, 0.95, ...)` scores of
`recommend_properties` (opaque, deterministic per property name). -/
structure BackendState where
  pipelineLoaded : Bool
  predictExpm1 : PropertyInput → ℚ
  locationEmpty : Bool
  propIndex : List String
  locations : List String
  dist : String → String → ℚ
  mockScore : String → Nat → ℚ

/-- `POST /api/predict_price` in `backend/app.py` (lines 210–240): fail when
the pipeline is not loaded, otherwise return the rounded ±0.22 band.  No
sector or property-type validation is performed in this variant. -/
def backend_predict_price (s : BackendState) (input : PropertyInput) :
    Except ApiError (ℚ × ℚ) :=
  if s.pipelineLoaded = false then .error .modelNotLoaded
  else
    let band := priceBand (s.predictExpm1 input)
    .ok (pyRound2 band.low, pyRound2 band.high)

/-- The hard-coded sample list `location_search` in `backend/app.py` returns
when `location_df.empty` (lines 682–687). -/
def fallbackLocationResults : List (String × ℚ) :=
  [("Emaar Palm Gardens", 1/2), ("The Coralwood", 6/5), ("Wembley Estate", 9/5)]

/-- The hard-coded sample list `recommend_properties` in `backend/app.py`
returns when `location_df.empty` (lines 706–713). -/
def fallbackRecommendations : List (String × ℚ) :=
  [("Emaar Palm Gardens", 95/100), ("The Leaf Residences", 87/100),
   ("Coralwood Apartments", 82/100), ("Wembley Estate", 78/100),
   ("Sobha International", 75/100)]

/-- `GET /api/recommender/location-search` in `backend/app.py` (lines
680–702): hard-coded samples when the table is missing; otherwise the same
strict-< radius filter as `main.py`, distances rounded to ONE decimal here,
and the result truncated to the first 10 entries (`return results[:10]`). -/
def backend_location_search (s : BackendState) (location : String) (radius : ℚ) :
    Except ApiError (List (String × ℚ)) :=
  if s.locationEmpty = true then .ok fallbackLocationResults
  else if location ∉ s.locations then .error .invalidLocation
  else if radius ≤ 0 then .error .invalidRadius
  else
    let selected := s.propIndex.filter (fun p => decide (s.dist location p < radius * 1000))
    let result_series := (selected.map (fun p => (p, s.dist location p))).insertionSort sndLE
    let results := result_series.map (fun kv => (kv.1, pyRound1 (kv.2 / 1000)))
    .ok (results.take 10)

/-- `GET /api/recommender/recommend` in `backend/app.py` (lines 704–735):
hard-coded samples when the table is missing; otherwise remove the first
occurrence of the query name (`all_properties.remove(property_name)`), score
the remaining properties with the seeded mock similarity, sort stably by
descending score, and return the Python slice `[: top_n]` with scores
rounded to 3 decimals. -/
def backend_recommend (s : BackendState) (property_name : String) (top_n : ℤ) :
    Except ApiError (List (String × ℚ)) :=
  if s.locationEmpty = true then .ok fallbackRecommendations
  else if property_name ∉ s.propIndex then .error .propertyNotFound
  else
    let all_properties := s.propIndex.erase property_name
    let results := (List.range all_properties.length).map
      (fun i => (all_properties.getD i "", s.mockScore property_name i))
    let sorted := results.insertionSort sndGE
    .ok ((pySliceTo sorted top_n).map (fun kv => (kv.1, pyRound3 kv.2)))

/-! ## Helper lemmas about the Python-slice and row constructions -/

lemma pySliceOneTo_subset_drop {α : Type} (l : List α) (j : ℤ) :
    pySliceOneTo l j ⊆ l.drop 1 := by
  unfold pySliceOneTo
  generalize (max 0 (min (if j < 0 then j + (l.length : ℤ) else j) (l.length : ℤ))).toNat = k
  cases k with
  | zero => simp
  | succ n =>
    rw [show n + 1 = 1 + n by omega, ← List.take_drop]
    exact List.take_subset _ _

lemma pySliceOneTo_subset {α : Type} (l : List α) (j : ℤ) : pySliceOneTo l j ⊆ l :=
  fun _ hx => List.drop_subset _ _ (pySliceOneTo_subset_drop l j hx)

lemma pySliceOneTo_eq_nil {α : Type} (l : List α) (j : ℤ) (h0 : 0 ≤ j) (h1 : j ≤ 1) :
    pySliceOneTo l j = [] := by
  unfold pySliceOneTo
  rw [if_neg (by omega)]
  rw [← List.length_eq_zero]
  simp only [List.length_drop, List.length_take]
  omega

lemma mem_simRow {s : ServerState} {qi : Nat} {x : Nat × ℚ} (hx : x ∈ simRow s qi) :
    x.1 < s.propIndex.length ∧ x.2 = combinedSim s qi x.1 := by
  simp only [simRow, List.mem_map, List.mem_range] at hx
  obtain ⟨i, hi, rfl⟩ := hx
  exact ⟨hi, rfl⟩

lemma self_mem_simRow {s : ServerState} {qi : Nat} (h : qi < s.propIndex.length) :
    (qi, combinedSim s qi qi) ∈ simRow s qi := by
  simp only [simRow, List.mem_map, List.mem_range]
  exact ⟨qi, h, rfl⟩

lemma simRow_map_fst (s : ServerState) (qi : Nat) :
    (simRow s qi).map Prod.fst = List.range s.propIndex.length := by
  have hcomp : (Prod.fst ∘ fun i => (i, combinedSim s qi i)) = id := rfl
  simp [simRow, List.map_map, hcomp]

lemma sorted_simRow_fst_nodup (s : ServerState) (qi : Nat) :
    (((simRow s qi).insertionSort sndGE).map Prod.fst).Nodup := by
  have hperm : List.Perm (((simRow s qi).insertionSort sndGE).map Prod.fst)
      ((simRow s qi).map Prod.fst) :=
    (List.perm_insertionSort _ _).map _
  rw [hperm.nodup_iff, simRow_map_fst]
  exact List.nodup_range _

/-! ## Concrete artifact states used as counterexamples and witnesses -/

/-- A syntactically valid prediction request: `flat` in a known sector. -/
def sampleInput : PropertyInput :=
  ⟨"flat", "sector 1", 4, 2, "2", "New Property", 2750, 0, 0,
   "unfurnished", "Low", "Mid Floor"⟩

/-- A loaded state whose pipeline, after `expm1`, yields the point estimate
0.1 crore for every input (`expm1` is onto `(-1, ∞)`, so 0.1 is an
attainable output of the opaque pipeline). -/
def lowPriceState : ServerState :=
  ⟨["sector 1"], fun _ => 1/10, [], [], fun _ _ => 0,
   fun _ _ => 0, fun _ _ => 0, fun _ _ => 0⟩

/-- A loaded state whose pipeline yields the point estimate 3 crore. -/
def highPriceState : ServerState :=
  ⟨["sector 1"], fun _ => 3, [], [], fun _ _ => 0,
   fun _ _ => 0, fun _ _ => 0, fun _ _ => 0⟩

/-- Two properties whose combined similarity row for `P2` is `[1, 1]`:
property `P1` ties the query's self-similarity. -/
def tieState : ServerState :=
  ⟨[], fun _ => 0, ["P1", "P2"], [], fun _ _ => 0,
   fun _ _ => 0, fun _ _ => 0, fun _ _ => 1⟩

/-- Row of `cosine_sim1` for the example universe `P1..P5`. -/
def exampleRow1 : List ℚ := [1, 1, 0, 1, 0]

/-- Row of `cosine_sim2` for the example universe `P1..P5`. -/
def exampleRow2 : List ℚ := [1/4, 1/2, 1/2, 1/4, 1/4]

/-- Row of `cosine_sim3` for the example universe `P1..P5`. -/
def exampleRow3 : List ℚ := [3/10, 0, 0, 0, 0]

/-- The spec's example universe `P1..P5`: the weighted combination
`0.5*S1 + 0.8*S2 + 1.0*S3` of the three rows above gives the combined
similarity row `[1.0, 0.9, 0.4, 0.7, 0.2]` for `P1`. -/
def exampleState : ServerState :=
  ⟨[], fun _ => 0, ["P1", "P2", "P3", "P4", "P5"], [], fun _ _ => 0,
   fun i j => if i = 0 then exampleRow1.getD j 0 else 0,
   fun i j => if i = 0 then exampleRow2.getD j 0 else 0,
   fun i j => if i = 0 then exampleRow3.getD j 0 else 0⟩

/-- One property at 1996 m from the single known location. -/
def boundaryState : ServerState :=
  ⟨[], fun _ => 0, ["P1"], ["LocA"], fun _ _ => 1996,
   fun _ _ => 0, fun _ _ => 0, fun _ _ => 0⟩

/-- Three properties with all-zero similarity matrices. -/
def threeState : ServerState :=
  ⟨[], fun _ => 0, ["P1", "P2", "P3"], [], fun _ _ => 0,
   fun _ _ => 0, fun _ _ => 0, fun _ _ => 0⟩

/-- Two properties with all-ones similarity matrices: every combined score
is `0.5 + 0.8 + 1.0 = 2.3`. -/
def allOnesState : ServerState :=
  ⟨[], fun _ => 0, ["P1", "P2"], [], fun _ _ => 0,
   fun _ _ => 1, fun _ _ => 1, fun _ _ => 1⟩

/-- Backend state: pipeline loaded, distance table loaded with two
properties, similarity matrices unavailable (as they always are in
`backend/app.py`), mock scores constant 0.7. -/
def backendLoadedState : BackendState :=
  ⟨true, fun _ => 1, false, ["P1", "P2"], [], fun _ _ => 0, fun _ _ => 7/10⟩

/-- Backend state: pipeline loaded but the distance table failed to load. -/
def backendEmptyState : BackendState :=
  ⟨true, fun _ => 1, true, [], [], fun _ _ => 0, fun _ _ => 0⟩

/-- Backend state with eleven properties, all 100 m from location `L`. -/
def backendElevenState : BackendState :=
  ⟨true, fun _ => 1, false,
   ["A1", "A2", "A3", "A4", "A5", "A6", "A7", "A8", "A9", "A10", "A11"],
   ["L"], fun _ _ => 100, fun _ _ => 0⟩

/-! ## Claim theorems -/

/-- C1 (amended): for every successful `predict_price` call the band around
the point estimate `point = expm1(pipeline(record))` is symmetric with
half-width exactly 0.22, satisfies `low ≤ point ≤ high`, and the response
is the pair of rounded band ends.  The code performs NO clamping of the low
bound, so `low > 0` holds exactly when the point estimate exceeds 0.22. -/
theorem predict_price_band_props (s : ServerState) (input : PropertyInput)
    (out : ℚ × ℚ) (h : predict_price s input = .ok out) :
    (priceBand (s.predictExpm1 input)).low ≤ (priceBand (s.predictExpm1 input)).point ∧
    (priceBand (s.predictExpm1 input)).point ≤ (priceBand (s.predictExpm1 input)).high ∧
    (priceBand (s.predictExpm1 input)).point - (priceBand (s.predictExpm1 input)).low
      = 22/100 ∧
    (priceBand (s.predictExpm1 input)).high - (priceBand (s.predictExpm1 input)).point
      = 22/100 ∧
    out = (pyRound2 (priceBand (s.predictExpm1 input)).low,
           pyRound2 (priceBand (s.predictExpm1 input)).high) ∧
    (0 < (priceBand (s.predictExpm1 input)).low ↔
      22/100 < (priceBand (s.predictExpm1 input)).point) := by
  unfold predict_price at h
  split at h
  · exact Except.noConfusion h
  split at h
  · exact Except.noConfusion h
  simp only [Except.ok.injEq] at h
  subst h
  simp only [priceBand]
  refine ⟨by linarith, by linarith, by ring, by ring, by trivial, ?_⟩
  constructor <;> intro hx <;> linarith

/-- Witness for C1's amended theorem at a pipeline with point estimate 3. -/
theorem predict_price_band_props_witness :
    (priceBand (highPriceState.predictExpm1 sampleInput)).low ≤
      (priceBand (highPriceState.predictExpm1 sampleInput)).point ∧
    (priceBand (highPriceState.predictExpm1 sampleInput)).point ≤
      (priceBand (highPriceState.predictExpm1 sampleInput)).high ∧
    (priceBand (highPriceState.predictExpm1 sampleInput)).point -
      (priceBand (highPriceState.predictExpm1 sampleInput)).low = 22/100 ∧
    (priceBand (highPriceState.predictExpm1 sampleInput)).high -
      (priceBand (highPriceState.predictExpm1 sampleInput)).point = 22/100 ∧
    ((278/100 : ℚ), (322/100 : ℚ)) =
      (pyRound2 (priceBand (highPriceState.predictExpm1 sampleInput)).low,
       pyRound2 (priceBand (highPriceState.predictExpm1 sampleInput)).high) ∧
    (0 < (priceBand (highPriceState.predictExpm1 sampleInput)).low ↔
      22/100 < (priceBand (highPriceState.predictExpm1 sampleInput)).point) :=
  predict_price_band_props highPriceState sampleInput (278/100, 322/100)
    (by with_unfolding_all rfl)

/-- C1 counterexample: a pipeline whose `expm1`-transformed output is the
attainable value 0.1 yields the unclamped band `(-0.12, 0.32)`: the low
bound is non-positive and is returned as-is, refuting both `low > 0` and
the claimed positive-floor clamping. -/
theorem predict_price_low_nonpositive :
    predict_price lowPriceState sampleInput = .ok (-12/100, 32/100) ∧
    (priceBand (lowPriceState.predictExpm1 sampleInput)).low ≤ 0 := by
  constructor
  · with_unfolding_all rfl
  · norm_num [priceBand, lowPriceState]

/-- C2 (amended): `recommend` excludes the query property whenever its
combined self-similarity is STRICTLY greater than every other entry of its
row.  The code deletes the top-ranked entry of the stable descending sort
(`sorted_scores[1 : top_n + 1]`), not the self entry, so strict dominance
is what guarantees exclusion; a self-similarity tie with a lower-indexed
property defeats it (see the counterexample). -/
theorem recommend_self_exclusion (s : ServerState) (pid : String) (top_n : ℤ)
    (hnd : s.propIndex.Nodup) (hmem : pid ∈ s.propIndex)
    (hdom : ∀ i < s.propIndex.length, i ≠ s.propIndex.indexOf pid →
      combinedSim s (s.propIndex.indexOf pid) i <
        combinedSim s (s.propIndex.indexOf pid) (s.propIndex.indexOf pid))
    (out : List (String × ℚ))
    (hout : recommend_properties_with_scores s pid top_n = .ok out) :
    pid ∉ out.map Prod.fst := by
  have hqi : s.propIndex.indexOf pid < s.propIndex.length :=
    List.indexOf_lt_length.mpr hmem
  unfold recommend_properties_with_scores at hout
  rw [if_neg (not_not_intro hmem)] at hout
  simp only [Except.ok.injEq] at hout
  subst hout
  intro hpid
  rw [List.map_map, List.mem_map] at hpid
  obtain ⟨x, hx_top, hx_pid⟩ := hpid
  have hx_sorted := pySliceOneTo_subset _ _ hx_top
  have hx_drop := pySliceOneTo_subset_drop _ _ hx_top
  obtain ⟨hxN, hxval⟩ := mem_simRow ((List.mem_insertionSort _).mp hx_sorted)
  have hx_name : s.propIndex.getD x.1 "" = pid := hx_pid
  rw [List.getD_eq_getElem _ _ hxN] at hx_name
  have hx_eq : x.1 = s.propIndex.indexOf pid := by
    have hpid_at : s.propIndex[s.propIndex.indexOf pid] = pid :=
      List.getElem_indexOf hqi
    exact hnd.getElem_inj_iff.mp (by rw [hx_name, hpid_at])
  rcases hshape : (simRow s (s.propIndex.indexOf pid)).insertionSort sndGE
    with _ | ⟨hd, tl⟩
  · rw [hshape] at hx_drop
    simp at hx_drop
  · rw [hshape] at hx_drop
    simp only [List.drop_succ_cons, List.drop_zero] at hx_drop
    have hsort := List.sorted_insertionSort sndGE (simRow s (s.propIndex.indexOf pid))
    rw [hshape, List.sorted_cons] at hsort
    have hd_mem : hd ∈ simRow s (s.propIndex.indexOf pid) := by
      have : hd ∈ (simRow s (s.propIndex.indexOf pid)).insertionSort sndGE := by
        rw [hshape]; exact List.mem_cons_self _ _
      exact (List.mem_insertionSort _).mp this
    obtain ⟨hdN, hdval⟩ := mem_simRow hd_mem
    have hhd1 : hd.1 = s.propIndex.indexOf pid := by
      by_contra hne
      have hself : (s.propIndex.indexOf pid,
          combinedSim s (s.propIndex.indexOf pid) (s.propIndex.indexOf pid)) ∈
          (simRow s (s.propIndex.indexOf pid)).insertionSort sndGE := by
        rw [List.mem_insertionSort _]; exact self_mem_simRow hqi
      rw [hshape] at hself
      rcases List.mem_cons.mp hself with heq | htl
      · exact hne (by rw [← heq])
      · have hle : sndGE hd (s.propIndex.indexOf pid,
            combinedSim s (s.propIndex.indexOf pid) (s.propIndex.indexOf pid)) :=
          hsort.1 _ htl
        have hlt : hd.2 <
            combinedSim s (s.propIndex.indexOf pid) (s.propIndex.indexOf pid) := by
          rw [hdval]; exact hdom hd.1 hdN hne
        exact absurd hle (by simp only [sndGE]; exact not_le.mpr hlt)
    have hnodup := sorted_simRow_fst_nodup s (s.propIndex.indexOf pid)
    rw [hshape] at hnodup
    simp only [List.map_cons, List.nodup_cons] at hnodup
    exact hnodup.1 (List.mem_map.mpr ⟨x, hx_drop, by rw [hx_eq, ← hhd1]⟩)

/-- Witness for C2's amended theorem on the example universe, where `P1`'s
self-similarity 1.0 strictly dominates its row. -/
theorem recommend_self_exclusion_witness :
    "P1" ∉ ([("P2", (9/10 : ℚ)), ("P4", (7/10 : ℚ))].map Prod.fst) :=
  recommend_self_exclusion exampleState "P1" 2 (by decide) (by decide)
    (by with_unfolding_all decide) [("P2", 9/10), ("P4", 7/10)]
    (by with_unfolding_all rfl)

/-- C2 counterexample: in a two-property universe where `P1` ties `P2`'s
self-similarity, the stable descending sort puts `P1` first, the code drops
that top entry, and `recommend("P2", 1)` returns `P2` itself. -/
theorem recommend_returns_self_on_tie :
    recommend_properties_with_scores tieState "P2" 1 = .ok [("P2", 1)] ∧
    "P2" ∈ ([("P2", (1 : ℚ))].map Prod.fst) := by
  constructor
  · with_unfolding_all rfl
  · simp

/-- C3 (amended): every result of `search_locations` comes from a property
whose stored distance is strictly below `radius * 1000` meters (selection
uses strict `<`), hence its unrounded kilometer distance is strictly below
`radius`; the reported distance is that value rounded to 2 decimals —
which, per the counterexample, can land at or above `radius`. -/
theorem search_locations_radius_strict (s : ServerState) (loc : String)
    (radius : ℚ) (out : List (String × ℚ))
    (h : search_locations s loc radius = .ok out) :
    ∀ x ∈ out, ∃ p, p ∈ s.propIndex ∧ x.1 = p ∧
      s.dist loc p < radius * 1000 ∧ s.dist loc p / 1000 < radius ∧
      x.2 = pyRound2 (s.dist loc p / 1000) := by
  unfold search_locations at h
  split at h
  · exact Except.noConfusion h
  split at h
  · exact Except.noConfusion h
  simp only [Except.ok.injEq] at h
  subst h
  intro x hx
  rw [List.mem_map] at hx
  obtain ⟨kv, hkv, rfl⟩ := hx
  have hkv' := (List.mem_insertionSort _).mp hkv
  rw [List.mem_map] at hkv'
  obtain ⟨p, hp, rfl⟩ := hkv'
  rw [List.mem_filter] at hp
  have hlt : s.dist loc p < radius * 1000 := of_decide_eq_true hp.2
  refine ⟨p, hp.1, rfl, hlt, ?_, rfl⟩
  rw [div_lt_iff₀ (by norm_num : (0:ℚ) < 1000)]
  exact hlt

/-- Witness for C3's amended theorem: one property at 1996 m, radius 3 km,
instantiated at the single returned result `("P1", 2)`. -/
theorem search_locations_radius_strict_witness :
    ∃ p, p ∈ boundaryState.propIndex ∧ "P1" = p ∧
      boundaryState.dist "LocA" p < 3 * 1000 ∧
      boundaryState.dist "LocA" p / 1000 < 3 ∧
      (2 : ℚ) = pyRound2 (boundaryState.dist "LocA" p / 1000) :=
  search_locations_radius_strict boundaryState "LocA" 3 [("P1", 2)]
    (by with_unfolding_all rfl) ("P1", 2) (by simp)

/-- C3 counterexample: a property at 1996 m qualifies for radius 1.9999 km
(1996 < 1999.9), but its reported distance `round(1.996, 2) = 2.0` is NOT
strictly below the radius — rounding breaks the claimed strictness of the
returned distances. -/
theorem search_locations_rounded_exceeds_radius :
    search_locations boundaryState "LocA" (19999/10000) = .ok [("P1", 2)] ∧
    ¬((2 : ℚ) < 19999/10000) := by
  constructor
  · with_unfolding_all rfl
  · norm_num

/-- C4 (amended): in `backend/app.py` the similarity matrices are never
deserialized (always bound to empty arrays), yet when the pipeline loads,
`predict_price` succeeds; and `recommend_properties` never fails with an
artifact error: with the distance table missing it returns the hard-coded
fabricated sample list, and with the table loaded it returns mock-scored
rankings — in both cases a successful-looking result. -/
theorem backend_engines_degradation (s : BackendState) (input : PropertyInput)
    (pid : String) (n : ℤ) (hp : s.pipelineLoaded = true) :
    (backend_predict_price s input).isOk = true ∧
    (s.locationEmpty = true →
      backend_recommend s pid n = .ok fallbackRecommendations) ∧
    (s.locationEmpty = false → pid ∈ s.propIndex →
      ∃ res, backend_recommend s pid n = .ok res) := by
  refine ⟨?_, ?_, ?_⟩
  · simp [backend_predict_price, hp, Except.isOk, Except.toBool]
  · intro hloc
    unfold backend_recommend
    rw [if_pos hloc]
  · intro hloc hmem
    unfold backend_recommend
    rw [if_neg (by simp [hloc]), if_neg (not_not_intro hmem)]
    exact ⟨_, rfl⟩

/-- Witness for C4's amended theorem at a loaded backend state. -/
theorem backend_engines_degradation_witness :
    (backend_predict_price backendLoadedState sampleInput).isOk = true ∧
    (backendLoadedState.locationEmpty = true →
      backend_recommend backendLoadedState "P1" 5 = .ok fallbackRecommendations) ∧
    (backendLoadedState.locationEmpty = false →
      "P1" ∈ backendLoadedState.propIndex →
      ∃ res, backend_recommend backendLoadedState "P1" 5 = .ok res) :=
  backend_engines_degradation backendLoadedState sampleInput "P1" 5 rfl

/-- C4 counterexample: with the similarity artifacts unavailable (as they
always are in `backend/app.py`), `recommend` does not fail with an
artifact-unavailable error — it returns fabricated successful results, both
when the distance table is loaded (mock scores) and when it is missing
(hard-coded samples). -/
theorem backend_recommend_fabricated :
    backend_recommend backendLoadedState "P1" 5 = .ok [("P2", 7/10)] ∧
    backend_recommend backendEmptyState "X" 5 = .ok fallbackRecommendations := by
  constructor
  · with_unfolding_all rfl
  · with_unfolding_all rfl

/-- C5: for every property in the universe and every `top_n ≥ 1`,
`recommend` succeeds and returns exactly `min top_n (N - 1)` results, where
`N` is the universe size (the slice `sorted_scores[1 : top_n + 1]` of the
`N`-element ranking). -/
theorem recommend_result_count (s : ServerState) (pid : String) (top_n : ℤ)
    (hmem : pid ∈ s.propIndex) (htop : 1 ≤ top_n) :
    ∃ out, recommend_properties_with_scores s pid top_n = .ok out ∧
      (out.length : ℤ) = min top_n ((s.propIndex.length : ℤ) - 1) := by
  have hN : 0 < s.propIndex.length := List.length_pos_of_mem hmem
  unfold recommend_properties_with_scores
  rw [if_neg (not_not_intro hmem)]
  refine ⟨_, rfl, ?_⟩
  have hrow : (simRow s (s.propIndex.indexOf pid)).length = s.propIndex.length := by
    simp [simRow]
  rw [List.length_map]
  unfold pySliceOneTo
  rw [if_neg (by omega : ¬(top_n + 1 < 0))]
  simp only [List.length_drop, List.length_take, List.length_insertionSort, hrow]
  omega

/-- Witness for C5 on a three-property universe with `top_n = 2`. -/
theorem recommend_result_count_witness :
    ∃ out, recommend_properties_with_scores threeState "P1" 2 = .ok out ∧
      (out.length : ℤ) = min 2 ((threeState.propIndex.length : ℤ) - 1) :=
  recommend_result_count threeState "P1" 2 (by decide) (by norm_num)

/-- C6: on the spec's example universe `P1..P5`, whose three similarity
rows combine under the fixed weights `0.5/0.8/1.0` to
`[1.0, 0.9, 0.4, 0.7, 0.2]` for `P1`, `recommend("P1", 2)` returns exactly
`[("P2", 0.9), ("P4", 0.7)]` in that order — descending ranking of the
weighted combination, truncated to `top_n` after dropping the top entry. -/
theorem recommend_combined_example :
    recommend_properties_with_scores exampleState "P1" 2 =
      .ok [("P2", 9/10), ("P4", 7/10)] := by
  with_unfolding_all rfl

/-- C7 (amended): `recommend` performs no validation of `top_n`: a
non-positive `top_n` is NOT rejected with an error; for `top_n = 0` and
`top_n = -1` the call succeeds with an empty result list (and other
negative values are interpreted by Python slice rules from the end of the
ranking). -/
theorem recommend_nonpositive_topn (s : ServerState) (pid : String) (n : ℤ)
    (hmem : pid ∈ s.propIndex) (hn : n = 0 ∨ n = -1) :
    recommend_properties_with_scores s pid n = .ok [] := by
  unfold recommend_properties_with_scores
  rw [if_neg (not_not_intro hmem)]
  have h := pySliceOneTo_eq_nil
    ((simRow s (s.propIndex.indexOf pid)).insertionSort sndGE) (n + 1)
    (by omega) (by omega)
  simp only [h, List.map_nil]

/-- Witness for C7's amended theorem at `top_n = 0`. -/
theorem recommend_nonpositive_topn_witness :
    recommend_properties_with_scores tieState "P1" 0 = .ok [] :=
  recommend_nonpositive_topn tieState "P1" 0 (by decide) (Or.inl rfl)

/-- C7 counterexample: `recommend` with `top_n = 0` on a loaded state is
not rejected with any error — it returns a (successful) empty list. -/
theorem recommend_topn_zero_not_rejected :
    recommend_properties_with_scores threeState "P1" 0 = .ok [] := by
  with_unfolding_all rfl

/-- C8: `predict_price` is a pure, deterministic function of the pipeline
artifact and the request: any two states that agree on the sector
vocabulary and the pipeline — regardless of every other loaded artifact —
give bit-identical responses for identical inputs. -/
theorem predict_price_deterministic (s1 s2 : ServerState)
    (i1 i2 : PropertyInput) (hsec : s1.sectors = s2.sectors)
    (hpipe : s1.predictExpm1 = s2.predictExpm1) (hinput : i1 = i2) :
    predict_price s1 i1 = predict_price s2 i2 := by
  subst hinput
  unfold predict_price
  rw [hsec, hpipe]

/-- A state agreeing with `highPriceState` on sectors and pipeline but with
different distance and similarity artifacts. -/
def variantState : ServerState :=
  ⟨["sector 1"], fun _ => 3, ["Q1"], ["LocZ"], fun _ _ => 42,
   fun _ _ => 1, fun _ _ => 1, fun _ _ => 1⟩

/-- Witness for C8: the other artifacts do not influence the response. -/
theorem predict_price_deterministic_witness :
    predict_price highPriceState sampleInput =
      predict_price variantState sampleInput :=
  predict_price_deterministic highPriceState variantState sampleInput
    sampleInput rfl rfl rfl

/-- C9: the backend location search caps its output at 10 entries: when the
distance table is loaded, the result length is exactly
`min 10 (number of properties strictly within the radius)` — so whenever
more than 10 properties qualify, the matches beyond the 10 nearest are
silently dropped and the list is not the full in-radius set. -/
theorem backend_location_search_capped (s : BackendState) (loc : String)
    (radius : ℚ) (out : List (String × ℚ))
    (h : backend_location_search s loc radius = .ok out) :
    out.length ≤ 10 ∧
    (s.locationEmpty = false →
      out.length = min 10 ((s.propIndex.filter
        (fun p => decide (s.dist loc p < radius * 1000))).length)) := by
  unfold backend_location_search at h
  cases hemp : s.locationEmpty with
  | true =>
    rw [if_pos hemp] at h
    simp only [Except.ok.injEq] at h
    subst h
    refine ⟨by norm_num [fallbackLocationResults], fun hfalse => ?_⟩
    exact Bool.noConfusion hfalse
  | false =>
    rw [if_neg (by simp [hemp])] at h
    split at h
    · exact Except.noConfusion h
    split at h
    · exact Except.noConfusion h
    simp only [Except.ok.injEq] at h
    subst h
    constructor
    · exact List.length_take_le _ _
    · intro _
      simp [List.length_take, List.length_insertionSort, List.length_map]

/-- The first ten of the eleven in-radius properties, as reported. -/
def elevenOut : List (String × ℚ) :=
  [("A1", 1/10), ("A2", 1/10), ("A3", 1/10), ("A4", 1/10), ("A5", 1/10),
   ("A6", 1/10), ("A7", 1/10), ("A8", 1/10), ("A9", 1/10), ("A10", 1/10)]

/-- Witness for C9: eleven properties qualify, ten are returned. -/
theorem backend_location_search_capped_witness :
    elevenOut.length ≤ 10 ∧
    (backendElevenState.locationEmpty = false →
      elevenOut.length = min 10 ((backendElevenState.propIndex.filter
        (fun p => decide (backendElevenState.dist "L" p < 1 * 1000))).length)) :=
  backend_location_search_capped backendElevenState "L" 1 elevenOut
    (by with_unfolding_all rfl)

/-- Each cell of each similarity matrix lies in `[0, 1]` (on the matrix
index range). -/
def simBounded (s : ServerState) : Prop :=
  ∀ i j : Nat, i < s.propIndex.length → j < s.propIndex.length →
    (0 ≤ s.sim1 i j ∧ s.sim1 i j ≤ 1) ∧ (0 ≤ s.sim2 i j ∧ s.sim2 i j ≤ 1) ∧
    (0 ≤ s.sim3 i j ∧ s.sim3 i j ≤ 1)

/-- C10: when every similarity cell lies in `[0, 1]`, every score returned
by `recommend` lies in `[0, 2.3]` (the sum of the fixed weights
`0.5 + 0.8 + 1.0`); and the bound is reachable — scores are raw weighted
sums, never normalized back into `[0, 1]`: with all-ones matrices the
returned score is `2.3 > 1`. -/
theorem recommend_score_range :
    (∀ (s : ServerState) (pid : String) (n : ℤ) (out : List (String × ℚ)),
      simBounded s → recommend_properties_with_scores s pid n = .ok out →
      ∀ x ∈ out, 0 ≤ x.2 ∧ x.2 ≤ 23/10) ∧
    (simBounded allOnesState ∧
      recommend_properties_with_scores allOnesState "P1" 1 =
        .ok [("P2", 23/10)] ∧
      (1 : ℚ) < 23/10) := by
  constructor
  · intro s pid n out hb hout x hx
    unfold recommend_properties_with_scores at hout
    split at hout
    · exact Except.noConfusion hout
    rename_i hnmem
    have hmem : pid ∈ s.propIndex := not_not.mp hnmem
    have hqi : s.propIndex.indexOf pid < s.propIndex.length :=
      List.indexOf_lt_length.mpr hmem
    simp only [Except.ok.injEq] at hout
    subst hout
    rw [List.mem_map] at hx
    obtain ⟨y, hy, rfl⟩ := hx
    have hy_sorted := pySliceOneTo_subset _ _ hy
    obtain ⟨hyN, hyval⟩ := mem_simRow ((List.mem_insertionSort _).mp hy_sorted)
    obtain ⟨h1, h2, h3⟩ := hb (s.propIndex.indexOf pid) y.1 hqi hyN
    show 0 ≤ y.2 ∧ y.2 ≤ 23/10
    rw [hyval]
    unfold combinedSim
    constructor
    · linarith [h1.1, h2.1, h3.1]
    · linarith [h1.2, h2.2, h3.2]
  · refine ⟨?_, by with_unfolding_all rfl, by norm_num⟩
    intro i j hi hj
    refine ⟨⟨?_, ?_⟩, ⟨?_, ?_⟩, ⟨?_, ?_⟩⟩ <;> norm_num [allOnesState]

/-- Witness for C10's bound at the all-ones state. -/
theorem recommend_score_range_witness :
    0 ≤ (23/10 : ℚ) ∧ (23/10 : ℚ) ≤ 23/10 :=
  recommend_score_range.1 allOnesState "P1" 1 [("P2", 23/10)]
    recommend_score_range.2.1 recommend_score_range.2.2.1
    ("P2", 23/10) (by simp)
